import Mathlib

/-!
Verification of the HSDM estimation driver
(`hlm/lacombe_mcintyre/sdm/model.py`).

Shallow-embedding conventions:
* Python floats are modelled as `ℚ`; Python float division by zero raises
  `ZeroDivisionError`, modelled through `Except`.
* numpy arrays are `Matrix (Fin n) (Fin m) ℚ` (sparsity is a representation
  detail and is not modelled).
* External collaborators that are not part of the provided sources
  (the `sample` per-parameter update sweep, `speigen_range`, `verify.*`) are
  either abstracted as parameters or modelled from the specification; the
  latter is marked in the corresponding doc comment.
* Raised Python exceptions are `PyError` values; a function that can raise
  returns `Except PyError _`.
-/

namespace HLM

/-- Python exceptions raised on the code paths modelled here. -/
inductive PyError where
  | nameError (missing : String)
  | zeroDivisionError
  | userWarning (msg : String)
  deriving DecidableEq, Repr

/-- The module-level `SAMPLERS` list (model.py line 16). -/
def SAMPLERS : List String :=
  ["Alphas", "Betas", "Sigma2", "Tau2", "Gammas", "Rho"]

/-- A minimal Python object-identity model for lists of strings: the heap is
the list of allocated list objects and an object reference is its index. -/
structure PyHeap where
  lists : List (List String)
  deriving DecidableEq, Repr

/-- The heap right after importing model.py: exactly one list object has been
allocated, the module-level `SAMPLERS` list. -/
def module_heap : PyHeap := ⟨[SAMPLERS]⟩

/-- The reference to the module-level `SAMPLERS` list object. -/
def SAMPLERS_id : ℕ := 0

/-- Embeds model.py lines 32-35: `self.traced_params = SAMPLERS` binds the
module-level list object itself (a reference assignment allocates nothing, so
the heap is returned unchanged and the traced-params reference is the
`SAMPLERS` reference); then `extra_tracked_params` is popped from the keyword
arguments, and when it is not None the line
`self.traced_params.extend(extra_tracked_params)` evaluates the undefined name
`extra_tracked_params` (the local is called `extras`), raising `NameError`. -/
def setup_traced_params (h : PyHeap) (samplers_ref : ℕ)
    (extras : Option (List String)) : Except PyError (PyHeap × ℕ) :=
  match extras with
  | some _ => .error (.nameError "extra_tracked_params")
  | none => .ok (h, samplers_ref)

/-- The `truncate` configuration value: `'eigs'`, `'stable'`, or an explicit
(low, high) pair. -/
inductive Truncate where
  | eigs
  | stable
  | pair (low high : ℚ)
  deriving DecidableEq, Repr

/-- The `self.configs.Rho` namespace built by `_setup_configs`
(model.py lines 85-97); the proposal-distribution object is opaque and
omitted. -/
structure RhoConfigs where
  jump : ℚ
  ar_low : ℚ
  ar_hi : ℚ
  adapt_step : ℚ
  rejected : ℕ
  accepted : ℕ
  max_adapt : ℕ
  adapt : Bool
  deriving DecidableEq, Repr

/-- The `self.configs` namespace (model.py lines 83-97). -/
structure Configs where
  truncate : Truncate
  Rho : RhoConfigs
  deriving DecidableEq, Repr

/-- Embeds `_setup_configs` (model.py lines 72-97): records `truncate` and the
Metropolis control parameters; `adapt` is true iff `tuning > 0`; defaults are
`rho_jump = 0.5`, `rho_ar_low = 0.4`, `rho_ar_hi = 0.6`,
`rho_adapt_step = 1.01`, `tuning = 0`. -/
def setup_configs (truncate : Truncate) (tuning : ℕ)
    (rho_jump rho_ar_low rho_ar_hi rho_adapt_step : ℚ) : Configs :=
  ⟨truncate,
   ⟨rho_jump, rho_ar_low, rho_ar_hi, rho_adapt_step, 0, 0, tuning,
    decide (0 < tuning)⟩⟩

/-- Modelled from the spec: `speigen_range` lives in `hlm.utils`, which is not
among the provided sources; it is the `eigenRange(sparseMatrix) ->
(minEig, maxEig)` collaborator of spec section 1, returning the extremal
eigenvalues as plain floats. Consequently the Python division `1./e` performed
on its results in `_setup_truncation` raises `ZeroDivisionError` when `e = 0`;
`float_one_div` is that division. -/
def float_one_div (e : ℚ) : Except PyError ℚ :=
  if e = 0 then .error .zeroDivisionError else .ok (1 / e)

/-- Embeds `_setup_truncation` (model.py lines 99-113). Although its docstring
documents three strategies keyed on `configs.truncate`, the body
unconditionally computes the eigen-range of `M` and inverts it: the `cfg`
argument is never consulted. The eigen-range collaborator is abstracted by
passing its result `(M_emin, M_emax)`. -/
def setup_truncation (cfg : Configs) (M_emin M_emax : ℚ) :
    Except PyError (ℚ × ℚ) := do
  let Rho_min ← float_one_div M_emin
  let Rho_max ← float_one_div M_emax
  pure (Rho_min, Rho_max)

/-- The strategy that `_setup_truncation`'s own docstring (model.py lines
100-110) and spec section 4.1 document: `eigs` inverts the eigen-range,
`stable` fixes the bounds at (-1, 1), and an explicit pair is used as given. -/
def setup_truncation_documented (t : Truncate) (M_emin M_emax : ℚ) :
    Except PyError (ℚ × ℚ) :=
  match t with
  | .eigs => do
      let Rho_min ← float_one_div M_emin
      let Rho_max ← float_one_div M_emax
      pure (Rho_min, Rho_max)
  | .stable => .ok (-1, 1)
  | .pair low high => .ok (low, high)

/-- The values assigned by `_setup_initial_values` (model.py lines 115-132). -/
structure InitialValues (N J p q : ℕ) where
  Betas : Matrix (Fin p) (Fin 1) ℚ
  Gammas : Matrix (Fin q) (Fin 1) ℚ
  Alphas : Matrix (Fin J) (Fin 1) ℚ
  Sigma2 : ℚ
  Tau2 : ℚ
  Rho : ℚ
  B : Matrix (Fin J) (Fin J) ℚ
  DeltaAlphas : Matrix (Fin N) (Fin 1) ℚ
  XBetas : Matrix (Fin N) (Fin 1) ℚ
  ZGammas : Matrix (Fin J) (Fin 1) ℚ
  BZGammas : Matrix (Fin J) (Fin 1) ℚ

/-- Embeds `_setup_initial_values` (model.py lines 115-132). `B` is
`Ij - Rho * M` (the sparse conversion is a representation detail). Python
computes `Rho = -1.0 / (self.state.J - 1)` with integer `J`, which raises
`ZeroDivisionError` when `J = 1`. -/
def setup_initial_values (N J p q : ℕ) (M : Matrix (Fin J) (Fin J) ℚ)
    (Delta : Matrix (Fin N) (Fin J) ℚ) (X : Matrix (Fin N) (Fin p) ℚ)
    (Z : Matrix (Fin J) (Fin q) ℚ) : Except PyError (InitialValues N J p q) :=
  if J = 1 then .error .zeroDivisionError
  else
    let Betas : Matrix (Fin p) (Fin 1) ℚ := 0
    let Gammas : Matrix (Fin q) (Fin 1) ℚ := 0
    let Alphas : Matrix (Fin J) (Fin 1) ℚ := 0
    let Sigma2 : ℚ := 2
    let Tau2 : ℚ := 2
    let Rho : ℚ := -1 / ((J : ℚ) - 1)
    let B : Matrix (Fin J) (Fin J) ℚ := 1 - Rho • M
    let DeltaAlphas := Delta * Alphas
    let XBetas := X * Betas
    let ZGammas := Z * Gammas
    let BZGammas := B * ZGammas
    .ok ⟨Betas, Gammas, Alphas, Sigma2, Tau2, Rho, B, DeltaAlphas, XBetas,
         ZGammas, BZGammas⟩

/-- The six tracked parameters' current values in `self.state`; the value type
is opaque to the driver, so it is a parameter `α`. -/
structure ParamVals (α : Type) where
  Alphas : α
  Betas : α
  Sigma2 : α
  Tau2 : α
  Gammas : α
  Rho : α
  deriving DecidableEq, Repr

/-- The `self.trace` namespace: one append-only list per tracked parameter
(the tracked set is always `SAMPLERS`, since supplying extras raises). -/
structure Trace (α : Type) where
  Alphas : List α
  Betas : List α
  Sigma2 : List α
  Tau2 : List α
  Gammas : List α
  Rho : List α
  deriving DecidableEq, Repr

/-- Embeds model.py line 36: the trace starts with an empty list per tracked
parameter. -/
def Trace.empty (α : Type) : Trace α := ⟨[], [], [], [], [], []⟩

/-- The sampler-facing part of the estimator: current parameter values and the
accumulated trace. -/
structure Driver (α : Type) where
  vals : ParamVals α
  trace : Trace α
  deriving DecidableEq, Repr

/-- Embeds `Base_HSDM.draw` (model.py lines 168-174): one `sample(self)` sweep
over the state (abstracted as `advance`), then an append of each tracked
parameter's current value to its trace list, in `SAMPLERS` order. -/
def draw {α : Type} (advance : ParamVals α → ParamVals α) (st : Driver α) :
    Driver α :=
  let v := advance st.vals
  ⟨v, ⟨st.trace.Alphas ++ [v.Alphas], st.trace.Betas ++ [v.Betas],
       st.trace.Sigma2 ++ [v.Sigma2], st.trace.Tau2 ++ [v.Tau2],
       st.trace.Gammas ++ [v.Gammas], st.trace.Rho ++ [v.Rho]⟩⟩

/-- Embeds the `while ndraws > 0` loop of `Base_HSDM.sample`
(model.py lines 155-159): `ndraws` successive calls to `draw`. -/
def sampleLoop {α : Type} (advance : ParamVals α → ParamVals α) :
    ℕ → Driver α → Driver α
  | 0, st => st
  | n + 1, st => sampleLoop advance n (draw advance st)

/-- Embeds `Base_HSDM.sample` (model.py lines 134-166). The verbosity print is
observational only and omitted. With `pop`, line 161 evaluates
`copy.deepcopy(self.trace.__dict__)`, but `copy` is never imported in
model.py, so the name lookup raises `NameError` after the draws complete. -/
def sampleCall {α : Type} (advance : ParamVals α → ParamVals α)
    (st : Driver α) (ndraws : ℕ) (pop : Bool) :
    Except PyError (Driver α × Option (Trace α)) :=
  let st1 := sampleLoop advance ndraws st
  if pop then .error (.nameError "copy") else .ok (st1, none)

/-- The estimator object built by `Base_HSDM.__init__`. -/
structure BaseModel (α : Type) where
  configs : Configs
  Rho_min : ℚ
  Rho_max : ℚ
  traced_params_ref : ℕ
  driver : Driver α
  deriving DecidableEq, Repr

/-- Embeds `Base_HSDM.__init__` (model.py lines 24-43), in source order:
tracked-parameter setup (raises `NameError` on a non-None
`extra_tracked_params`), `_setup_configs` with its defaults, then
`_setup_truncation` (which may raise), then `self.sample(n_samples)`
(`n_samples` defaults to 1000). The `_setup_data` precomputations and the
dimension-typed initial parameter values are abstracted into `v0`; their exact
content is the subject of `setup_initial_values`. -/
def base_init {α : Type} (advance : ParamVals α → ParamVals α)
    (v0 : ParamVals α) (extras : Option (List String)) (truncate : Truncate)
    (tuning : ℕ) (M_emin M_emax : ℚ) (n_samples : ℕ) :
    Except PyError (BaseModel α) := do
  let tp ← setup_traced_params module_heap SAMPLERS_id extras
  let cfg := setup_configs truncate tuning (1/2) (2/5) (3/5) (101/100)
  let bounds ← setup_truncation cfg M_emin M_emax
  let run ← sampleCall advance ⟨v0, Trace.empty α⟩ n_samples false
  pure ⟨cfg, bounds.1, bounds.2, tp.2, run.1⟩

/-- The formatted message of model.py lines 192-193. -/
def mismatch_msg (xN wN : ℕ) : String :=
  "Number of lower-level observations does not match between X (" ++
    toString xN ++ ") and W (" ++ toString wN ++ ")"

/-- Embeds `HSDM.__init__` (model.py lines 180-203): after weights validation
(an external collaborator, abstracted), the row count of `X` is compared with
`W.n`; on mismatch a `UserWarning` naming both counts is raised before
`Base_HSDM.__init__` builds any sampler state or takes any draw. -/
def hsdm_init {α : Type} (advance : ParamVals α → ParamVals α)
    (v0 : ParamVals α) (X_rows W_n : ℕ) (extras : Option (List String))
    (truncate : Truncate) (tuning : ℕ) (M_emin M_emax : ℚ) (n_samples : ℕ) :
    Except PyError (BaseModel α) :=
  if X_rows = W_n then
    base_init advance v0 extras truncate tuning M_emin M_emax n_samples
  else
    .error (.userWarning (mismatch_msg X_rows W_n))

/-- Modelled from the spec: the Metropolis update of `Rho` inside the
`advance` collaborator (module `hlm.lacombe_mcintyre.sdm.sample`, not among
the provided sources), spec section 4.4: propose `Rho + jump * eps` with a
symmetric innovation `eps`; reject immediately when the proposal leaves the
open interval (Rho_min, Rho_max); otherwise accept or reject according to the
posterior ratio, abstracted here as the boolean `accept`. Rejection leaves
`Rho` unchanged. -/
def rho_metropolis_step (Rho_min Rho_max jump Rho eps : ℚ) (accept : Bool) :
    ℚ :=
  let proposal := Rho + jump * eps
  if Rho_min < proposal ∧ proposal < Rho_max then
    if accept then proposal else Rho
  else Rho

/-- The `Rho` marginal of a sampling run: one Metropolis trial per draw,
driven by that draw's innovation and accept decision. -/
def rho_chain (Rho_min Rho_max jump : ℚ) : ℚ → List (ℚ × Bool) → ℚ
  | Rho, [] => Rho
  | Rho, m :: ms =>
      rho_chain Rho_min Rho_max jump
        (rho_metropolis_step Rho_min Rho_max jump Rho m.1 m.2) ms

/-- The spec section 8 scenario group-level weights: `J = 2`, zero diagonal,
row-standardized. -/
def Mscen : Matrix (Fin 2) (Fin 2) ℚ := !![0, 1; 1, 0]

/-- The spec section 8 scenario incidence: five units per group. -/
def Deltascen : Matrix (Fin 10) (Fin 2) ℚ :=
  Matrix.of fun i j =>
    if (i : ℕ) < 5 then (if (j : ℕ) = 0 then 1 else 0)
    else (if (j : ℕ) = 1 then 1 else 0)

/-- A constant lower-level covariate column for the scenario. -/
def Xscen : Matrix (Fin 10) (Fin 1) ℚ := Matrix.of fun _ _ => 1

/-- A constant group-level covariate column for the scenario. -/
def Zscen : Matrix (Fin 2) (Fin 1) ℚ := Matrix.of fun _ _ => 1

/-- The per-draw history of parameter values produced by `n` successive
`advance` sweeps from `v`: entry `k` is the state right after sweep `k+1`. -/
def drawHistory {α : Type} (advance : ParamVals α → ParamVals α) :
    ℕ → ParamVals α → List (ParamVals α)
  | 0, _ => []
  | n + 1, v => advance v :: drawHistory advance n (advance v)

/-- Append one recorded value per history entry to each per-parameter trace
list. -/
def traceAppend {α : Type} (t : Trace α) (hist : List (ParamVals α)) :
    Trace α :=
  ⟨t.Alphas ++ hist.map ParamVals.Alphas,
   t.Betas ++ hist.map ParamVals.Betas,
   t.Sigma2 ++ hist.map ParamVals.Sigma2,
   t.Tau2 ++ hist.map ParamVals.Tau2,
   t.Gammas ++ hist.map ParamVals.Gammas,
   t.Rho ++ hist.map ParamVals.Rho⟩

/-- A concrete `advance` sweep on natural-number-valued parameters, used by
witnesses. -/
def succAdvance : ParamVals ℕ → ParamVals ℕ :=
  fun v => ⟨v.Alphas + 1, v.Betas + 1, v.Sigma2 + 1, v.Tau2 + 1,
            v.Gammas + 1, v.Rho + 1⟩

/-! ## Helper lemmas -/

/-- `Except` bind on a success applies the continuation. -/
theorem except_bind_ok {ε α β : Type} (a : α) (f : α → Except ε β) :
    (Except.ok a >>= f) = f a := rfl

/-- `Except` bind on an error short-circuits. -/
theorem except_bind_error {ε α β : Type} (e : ε) (f : α → Except ε β) :
    ((Except.error e : Except ε α) >>= f) = .error e := rfl

/-- The truncation computation on nonzero extremal eigenvalues. -/
theorem setup_truncation_ok (cfg : Configs) (M_emin M_emax : ℚ)
    (h1 : M_emin ≠ 0) (h2 : M_emax ≠ 0) :
    setup_truncation cfg M_emin M_emax = .ok (1 / M_emin, 1 / M_emax) := by
  simp only [setup_truncation, float_one_div, if_neg h1, if_neg h2]
  rfl

/-- One Metropolis trial keeps `Rho` inside the open truncation interval. -/
theorem rho_step_mem (Rho_min Rho_max jump Rho eps : ℚ) (accept : Bool)
    (h : Rho_min < Rho ∧ Rho < Rho_max) :
    Rho_min < rho_metropolis_step Rho_min Rho_max jump Rho eps accept ∧
      rho_metropolis_step Rho_min Rho_max jump Rho eps accept < Rho_max := by
  simp only [rho_metropolis_step]
  by_cases hdom : Rho_min < Rho + jump * eps ∧ Rho + jump * eps < Rho_max
  case pos =>
    cases accept
    case false => simpa [hdom] using h
    case true => simp [hdom]
  case neg => simpa [hdom] using h

/-- The sampling loop advances the state `n` times and appends the resulting
history to every per-parameter trace list. -/
theorem sampleLoop_eq {α : Type} (advance : ParamVals α → ParamVals α) :
    ∀ (n : ℕ) (st : Driver α),
      sampleLoop advance n st =
        ⟨advance^[n] st.vals, traceAppend st.trace (drawHistory advance n st.vals)⟩ := by
  intro n
  induction n with
  | zero =>
      intro st
      simp [sampleLoop, drawHistory, traceAppend]
  | succ n ih =>
      intro st
      rw [show sampleLoop advance (n + 1) st
            = sampleLoop advance n (draw advance st) from rfl, ih]
      simp [draw, drawHistory, traceAppend, Function.iterate_succ_apply,
        List.append_assoc]

/-- `sampleLoop_eq` specialized to a run that starts from the empty trace. -/
theorem sampleLoop_empty_eq {α : Type} (advance : ParamVals α → ParamVals α)
    (n : ℕ) (v0 : ParamVals α) :
    sampleLoop advance n ⟨v0, Trace.empty α⟩ =
      ⟨advance^[n] v0, traceAppend (Trace.empty α) (drawHistory advance n v0)⟩ :=
  sampleLoop_eq advance n ⟨v0, Trace.empty α⟩

/-- The history of `n` sweeps has length `n`. -/
theorem drawHistory_length {α : Type} (advance : ParamVals α → ParamVals α) :
    ∀ (n : ℕ) (v : ParamVals α), (drawHistory advance n v).length = n := by
  intro n
  induction n with
  | zero => intro v; rfl
  | succ n ih => intro v; simp [drawHistory, ih]

/-! ## Claim theorems -/

/-- C1, counterexample: in the J = 2 scenario with the row-standardized
group weights `Mscen` (whose eigenvalues are -1 and 1, witnessed by the two
eigenvector equations), the truncation bounds are (Rho_min, Rho_max) =
(-1, 1), the initial value is Rho = -1/(J-1) = -1 = Rho_min, and a draw whose
proposal falls outside the domain is rejected and ends with Rho = -1, so
`Rho_min < Rho` — required by both the section 8 and the section 3 reading of
the bounds — fails at the end of a completed draw. -/
theorem rho_domain_invariant_cex :
    Mscen.mulVec ![(1 : ℚ), 1] = ![1, 1] ∧
      Mscen.mulVec ![(1 : ℚ), -1] = ![-1, 1] ∧
      setup_truncation (setup_configs .eigs 0 (1/2) (2/5) (3/5) (101/100))
          (-1) 1 = .ok (-1, 1) ∧
      Except.map InitialValues.Rho
          (setup_initial_values 10 2 1 1 Mscen Deltascen Xscen Zscen) =
        .ok (-1) ∧
      rho_metropolis_step (-1) 1 (1/2) (-1) 10 true = -1 ∧
      ¬ ((-1 : ℚ) < -1) := by
  refine ⟨?_, ?_, ?_, ?_, by norm_num [rho_metropolis_step], by norm_num⟩
  · funext i
    fin_cases i <;>
      simp [Mscen, Matrix.mulVec, Matrix.dotProduct, Fin.sum_univ_two]
  · funext i
    fin_cases i <;>
      simp [Mscen, Matrix.mulVec, Matrix.dotProduct, Fin.sum_univ_two]
  · rw [setup_truncation_ok _ _ _ (by norm_num) (by norm_num)]
    norm_num
  · simp only [setup_initial_values]
    norm_num [Except.map]

/-- C1, amended: provided the initial `Rho` lies strictly inside
`(Rho_min, Rho_max)`, the `Rho` current at the end of every completed draw
remains strictly inside `(Rho_min, Rho_max)`, independently of the number of
draws. -/
theorem rho_domain_invariant (Rho_min Rho_max jump Rho0 : ℚ)
    (hlo : Rho_min < Rho0) (hhi : Rho0 < Rho_max) (moves : List (ℚ × Bool)) :
    Rho_min < rho_chain Rho_min Rho_max jump Rho0 moves ∧
      rho_chain Rho_min Rho_max jump Rho0 moves < Rho_max := by
  induction moves generalizing Rho0 with
  | nil => exact ⟨hlo, hhi⟩
  | cons m ms ih =>
      have h := rho_step_mem Rho_min Rho_max jump Rho0 m.1 m.2 ⟨hlo, hhi⟩
      exact ih _ h.1 h.2

/-- Witness for the amended C1 theorem at a concrete run. -/
theorem rho_domain_invariant_witness :
    (((-1 : ℚ) < 0) ∧ ((0 : ℚ) < 1)) ∧
      ((-1 : ℚ) < rho_chain (-1) 1 (1/2) 0 [(10, true), (1/2, true)] ∧
        rho_chain (-1) 1 (1/2) 0 [(10, true), (1/2, true)] < 1) :=
  ⟨⟨by norm_num, by norm_num⟩,
   rho_domain_invariant (-1) 1 (1/2) 0 (by norm_num) (by norm_num)
     [(10, true), (1/2, true)]⟩

/-- C2: the `truncate` option does not select the bound computation. The code
of `_setup_truncation` always inverts the eigen-range: with
`truncate='stable'` and eigen-range (-1/2, 2) it produces (-2, 1/2), not the
documented (-1, 1); with an explicit pair (-3/4, 3/4) it again produces
(-2, 1/2) instead of the pair. `setup_truncation_documented` is the behavior
the docstring and the spec describe. -/
theorem truncate_option_ignored :
    setup_truncation (setup_configs .stable 0 (1/2) (2/5) (3/5) (101/100))
        (-1/2) 2 = .ok (-2, 1/2) ∧
      setup_truncation_documented .stable (-1/2) 2 = .ok (-1, 1) ∧
      setup_truncation
          (setup_configs (.pair (-3/4) (3/4)) 0 (1/2) (2/5) (3/5) (101/100))
          (-1/2) 2 = .ok (-2, 1/2) ∧
      setup_truncation_documented (.pair (-3/4) (3/4)) (-1/2) 2 =
        .ok (-3/4, 3/4) ∧
      ((-2 : ℚ), (1/2 : ℚ)) ≠ ((-1 : ℚ), (1 : ℚ)) ∧
      ((-2 : ℚ), (1/2 : ℚ)) ≠ ((-3/4 : ℚ), (3/4 : ℚ)) := by
  refine ⟨?_, rfl, ?_, rfl, by norm_num [Prod.ext_iff], by norm_num [Prod.ext_iff]⟩
  · rw [setup_truncation_ok _ _ _ (by norm_num) (by norm_num)]
    norm_num
  · rw [setup_truncation_ok _ _ _ (by norm_num) (by norm_num)]
    norm_num

/-- C3: for any configuration, when both extremal eigenvalues of `M` are
nonzero the truncation computation returns exactly
`(Rho_min, Rho_max) = (1/e_min, 1/e_max)`. -/
theorem eigen_bounds_are_reciprocals (cfg : Configs) (M_emin M_emax : ℚ)
    (h1 : M_emin ≠ 0) (h2 : M_emax ≠ 0) :
    setup_truncation cfg M_emin M_emax = .ok (1 / M_emin, 1 / M_emax) :=
  setup_truncation_ok cfg M_emin M_emax h1 h2

/-- Witness for C3 at the eigen-range (-2, 4). -/
theorem eigen_bounds_are_reciprocals_witness :
    (((-2 : ℚ) ≠ 0) ∧ ((4 : ℚ) ≠ 0)) ∧
      setup_truncation (setup_configs .eigs 0 (1/2) (2/5) (3/5) (101/100))
          (-2) 4 = .ok (1 / (-2), 1 / 4) :=
  ⟨⟨by norm_num, by norm_num⟩,
   eigen_bounds_are_reciprocals
     (setup_configs .eigs 0 (1/2) (2/5) (3/5) (101/100)) (-2) 4
     (by norm_num) (by norm_num)⟩

/-- C4: a zero extremal eigenvalue of `M` makes construction fail with the
division error raised at the `1./e` inversion (the spec's
NumericalInstability class) instead of producing an infinite bound; the
whole of `Base_HSDM.__init__` then errors, so the sampling loop — which comes
after the truncation step — never runs and no draw occurs. -/
theorem zero_eigenvalue_aborts {α : Type}
    (advance : ParamVals α → ParamVals α) (v0 : ParamVals α)
    (truncate : Truncate) (tuning : ℕ) (M_emin M_emax : ℚ) (n_samples : ℕ)
    (h : M_emin = 0 ∨ M_emax = 0) :
    base_init advance v0 none truncate tuning M_emin M_emax n_samples =
      .error .zeroDivisionError := by
  by_cases h1 : M_emin = 0
  · simp [base_init, setup_traced_params, setup_truncation, float_one_div,
      h1, except_bind_ok, except_bind_error]
  · have h2 : M_emax = 0 := h.resolve_left h1
    simp [base_init, setup_traced_params, setup_truncation, float_one_div,
      h1, h2, except_bind_ok, except_bind_error]

/-- Witness for C4 at a concrete configuration with a zero minimal
eigenvalue. -/
theorem zero_eigenvalue_aborts_witness :
    (((0 : ℚ) = 0) ∨ ((1 : ℚ) = 0)) ∧
      base_init succAdvance ⟨0, 0, 0, 0, 0, 0⟩ none .eigs 0 0 1 5 =
        .error .zeroDivisionError :=
  ⟨Or.inl rfl,
   zero_eigenvalue_aborts succAdvance ⟨0, 0, 0, 0, 0, 0⟩ .eigs 0 0 1 5
     (Or.inl rfl)⟩

/-- C5: `_setup_initial_values` deterministically assigns exactly the claimed
starting values: the p-by-1, q-by-1 and J-by-1 zero vectors to
`Betas, Gammas, Alphas`, `Sigma2 = Tau2 = 2` and `Rho = -1/(J-1)`; identical
inputs yield identical starting state. (The Python integer expression
`J - 1` must be nonzero, i.e. `J ≠ 1`, or line 124 raises.) -/
theorem initial_values_deterministic (N J p q : ℕ)
    (M : Matrix (Fin J) (Fin J) ℚ) (Delta : Matrix (Fin N) (Fin J) ℚ)
    (X : Matrix (Fin N) (Fin p) ℚ) (Z : Matrix (Fin J) (Fin q) ℚ)
    (hJ : J ≠ 1) :
    ∃ s : InitialValues N J p q,
      setup_initial_values N J p q M Delta X Z = .ok s ∧
      s.Betas = 0 ∧ s.Gammas = 0 ∧ s.Alphas = 0 ∧ s.Sigma2 = 2 ∧
      s.Tau2 = 2 ∧ s.Rho = -1 / ((J : ℚ) - 1) ∧
      ∀ (M2 : Matrix (Fin J) (Fin J) ℚ) (Delta2 : Matrix (Fin N) (Fin J) ℚ)
        (X2 : Matrix (Fin N) (Fin p) ℚ) (Z2 : Matrix (Fin J) (Fin q) ℚ),
        M2 = M → Delta2 = Delta → X2 = X → Z2 = Z →
          setup_initial_values N J p q M2 Delta2 X2 Z2 =
            setup_initial_values N J p q M Delta X Z := by
  have hval : setup_initial_values N J p q M Delta X Z =
      .ok ⟨0, 0, 0, 2, 2, -1 / ((J : ℚ) - 1),
           1 - (-1 / ((J : ℚ) - 1)) • M,
           Delta * (0 : Matrix (Fin J) (Fin 1) ℚ),
           X * (0 : Matrix (Fin p) (Fin 1) ℚ),
           Z * (0 : Matrix (Fin q) (Fin 1) ℚ),
           (1 - (-1 / ((J : ℚ) - 1)) • M) *
             (Z * (0 : Matrix (Fin q) (Fin 1) ℚ))⟩ := by
    simp only [setup_initial_values, if_neg hJ]
  exact ⟨_, hval, rfl, rfl, rfl, rfl, rfl, rfl,
    fun M2 Delta2 X2 Z2 hM hD hX hZ => by rw [hM, hD, hX, hZ]⟩

/-- Witness for C5 at the spec section 8 scenario dimensions. -/
theorem initial_values_deterministic_witness :
    ((2 : ℕ) ≠ 1) ∧
      ∃ s : InitialValues 10 2 1 1,
        setup_initial_values 10 2 1 1 Mscen Deltascen Xscen Zscen = .ok s ∧
        s.Betas = 0 ∧ s.Gammas = 0 ∧ s.Alphas = 0 ∧ s.Sigma2 = 2 ∧
        s.Tau2 = 2 ∧ s.Rho = -1 / (((2 : ℕ) : ℚ) - 1) ∧
        ∀ (M2 : Matrix (Fin 2) (Fin 2) ℚ) (Delta2 : Matrix (Fin 10) (Fin 2) ℚ)
          (X2 : Matrix (Fin 10) (Fin 1) ℚ) (Z2 : Matrix (Fin 2) (Fin 1) ℚ),
          M2 = Mscen → Delta2 = Deltascen → X2 = Xscen → Z2 = Zscen →
            setup_initial_values 10 2 1 1 M2 Delta2 X2 Z2 =
              setup_initial_values 10 2 1 1 Mscen Deltascen Xscen Zscen :=
  ⟨by norm_num,
   initial_values_deterministic 10 2 1 1 Mscen Deltascen Xscen Zscen
     (by norm_num)⟩

/-- C6: `sample(n, pop=False)` performs exactly `n` advance sweeps (the final
state is `advance` iterated `n` times on the initial state), records after
each sweep the post-sweep value of every tracked parameter (the trace is
exactly the pointwise history of the run), and starting from an empty trace
every tracked parameter's recorded sequence has length exactly `n`. -/
theorem sample_run_trace_lengths {α : Type}
    (advance : ParamVals α → ParamVals α) (v0 : ParamVals α) (n : ℕ) :
    sampleCall advance ⟨v0, Trace.empty α⟩ n false =
        .ok (⟨advance^[n] v0,
              traceAppend (Trace.empty α) (drawHistory advance n v0)⟩, none) ∧
      (sampleLoop advance n ⟨v0, Trace.empty α⟩).trace.Alphas.length = n ∧
      (sampleLoop advance n ⟨v0, Trace.empty α⟩).trace.Betas.length = n ∧
      (sampleLoop advance n ⟨v0, Trace.empty α⟩).trace.Sigma2.length = n ∧
      (sampleLoop advance n ⟨v0, Trace.empty α⟩).trace.Tau2.length = n ∧
      (sampleLoop advance n ⟨v0, Trace.empty α⟩).trace.Gammas.length = n ∧
      (sampleLoop advance n ⟨v0, Trace.empty α⟩).trace.Rho.length = n := by
  have hl := sampleLoop_empty_eq advance n v0
  refine ⟨by simp [sampleCall, hl], ?_, ?_, ?_, ?_, ?_, ?_⟩ <;>
    rw [hl] <;> simp [traceAppend, Trace.empty, drawHistory_length]

/-- Witness for C6 at a concrete three-draw run. -/
theorem sample_run_trace_lengths_witness :
    sampleCall succAdvance ⟨⟨0, 0, 0, 0, 0, 0⟩, Trace.empty ℕ⟩ 3 false =
        .ok (⟨succAdvance^[3] ⟨0, 0, 0, 0, 0, 0⟩,
              traceAppend (Trace.empty ℕ)
                (drawHistory succAdvance 3 ⟨0, 0, 0, 0, 0, 0⟩)⟩, none) ∧
      (sampleLoop succAdvance 3 ⟨⟨0, 0, 0, 0, 0, 0⟩, Trace.empty ℕ⟩).trace.Alphas.length = 3 ∧
      (sampleLoop succAdvance 3 ⟨⟨0, 0, 0, 0, 0, 0⟩, Trace.empty ℕ⟩).trace.Betas.length = 3 ∧
      (sampleLoop succAdvance 3 ⟨⟨0, 0, 0, 0, 0, 0⟩, Trace.empty ℕ⟩).trace.Sigma2.length = 3 ∧
      (sampleLoop succAdvance 3 ⟨⟨0, 0, 0, 0, 0, 0⟩, Trace.empty ℕ⟩).trace.Tau2.length = 3 ∧
      (sampleLoop succAdvance 3 ⟨⟨0, 0, 0, 0, 0, 0⟩, Trace.empty ℕ⟩).trace.Gammas.length = 3 ∧
      (sampleLoop succAdvance 3 ⟨⟨0, 0, 0, 0, 0, 0⟩, Trace.empty ℕ⟩).trace.Rho.length = 3 :=
  sample_run_trace_lengths succAdvance ⟨0, 0, 0, 0, 0, 0⟩ 3

/-- C7: the detach path does not return a snapshot: `sample(n, pop=True)`
evaluates `copy.deepcopy(self.trace.__dict__)` at line 161, but `copy` is
never imported in model.py, so the name lookup raises `NameError` — here at
the failing input of a fresh estimator state and zero draws. -/
theorem detach_raises_nameerror :
    sampleCall succAdvance ⟨⟨0, 0, 0, 0, 0, 0⟩, Trace.empty ℕ⟩ 0 true =
      .error (.nameError "copy") := rfl

/-- C8: when the row count of `X` differs from the unit count `W.n`,
`HSDM.__init__` fails with the `UserWarning` built at lines 192-193, whose
message names both counts, and no sampler state is built and no draw is taken
(the whole construction is that error). -/
theorem dimension_mismatch_fails {α : Type}
    (advance : ParamVals α → ParamVals α) (v0 : ParamVals α)
    (X_rows W_n : ℕ) (extras : Option (List String)) (truncate : Truncate)
    (tuning : ℕ) (M_emin M_emax : ℚ) (n_samples : ℕ) (h : X_rows ≠ W_n) :
    hsdm_init advance v0 X_rows W_n extras truncate tuning M_emin M_emax
        n_samples = .error (.userWarning (mismatch_msg X_rows W_n)) ∧
      ∃ s1 s2 s3 : String,
        mismatch_msg X_rows W_n =
          s1 ++ toString X_rows ++ s2 ++ toString W_n ++ s3 := by
  constructor
  · simp [hsdm_init, h]
  · exact ⟨"Number of lower-level observations does not match between X (",
      ") and W (", ")", rfl⟩

/-- Witness for C8 at the mismatched counts 10 and 12. -/
theorem dimension_mismatch_fails_witness :
    ((10 : ℕ) ≠ 12) ∧
      (hsdm_init succAdvance ⟨0, 0, 0, 0, 0, 0⟩ 10 12 none .eigs 0 (-1) 1 5 =
          .error (.userWarning (mismatch_msg 10 12)) ∧
        ∃ s1 s2 s3 : String,
          mismatch_msg 10 12 =
            s1 ++ toString (10 : ℕ) ++ s2 ++ toString (12 : ℕ) ++ s3) :=
  ⟨by norm_num,
   dimension_mismatch_fails succAdvance ⟨0, 0, 0, 0, 0, 0⟩ 10 12 none .eigs 0
     (-1) 1 5 (by norm_num)⟩

/-- C9: supplying a non-None `extra_tracked_params` makes construction raise
`NameError` (line 35 references the undefined name `extra_tracked_params`
where the local is called `extras`), so no estimator tracking extra
parameters can ever be built; moreover the traced-parameter assignment of
line 32 binds the module-level `SAMPLERS` list object itself: the heap is
returned unchanged (nothing is allocated, so no copy exists) and the
traced-params reference is exactly `SAMPLERS_id`. -/
theorem extras_nameerror_and_samplers_alias {α : Type}
    (advance : ParamVals α → ParamVals α) (v0 : ParamVals α)
    (ex : List String) (truncate : Truncate) (tuning : ℕ)
    (M_emin M_emax : ℚ) (n_samples : ℕ) :
    base_init advance v0 (some ex) truncate tuning M_emin M_emax n_samples =
        .error (.nameError "extra_tracked_params") ∧
      setup_traced_params module_heap SAMPLERS_id none =
        .ok (module_heap, SAMPLERS_id) :=
  ⟨by simp [base_init, setup_traced_params, except_bind_error], rfl⟩

/-- Witness for C9 at a concrete extras list. -/
theorem extras_nameerror_and_samplers_alias_witness :
    (base_init succAdvance ⟨0, 0, 0, 0, 0, 0⟩ (some ["Xb"]) .eigs 0 (-1) 1 5 =
        .error (.nameError "extra_tracked_params") ∧
      setup_traced_params module_heap SAMPLERS_id none =
        .ok (module_heap, SAMPLERS_id)) :=
  extras_nameerror_and_samplers_alias succAdvance ⟨0, 0, 0, 0, 0, 0⟩ ["Xb"]
    .eigs 0 (-1) 1 5

/-- C10: construction itself performs the draws: whenever the truncation step
succeeds, `Base_HSDM.__init__` returns (line 43) an estimator whose state has
already been advanced `n_samples` times and whose trace already holds exactly
`n_samples` entries per tracked parameter — sampling is not deferred to a
later call (`n_samples` defaults to 1000 at lines 24 and 182). -/
theorem construction_runs_sampler {α : Type}
    (advance : ParamVals α → ParamVals α) (v0 : ParamVals α)
    (truncate : Truncate) (tuning : ℕ) (M_emin M_emax : ℚ) (n_samples : ℕ)
    (h1 : M_emin ≠ 0) (h2 : M_emax ≠ 0) :
    ∃ m : BaseModel α,
      base_init advance v0 none truncate tuning M_emin M_emax n_samples =
          .ok m ∧
        m.driver.vals = advance^[n_samples] v0 ∧
        m.driver.trace.Alphas.length = n_samples ∧
        m.driver.trace.Betas.length = n_samples ∧
        m.driver.trace.Sigma2.length = n_samples ∧
        m.driver.trace.Tau2.length = n_samples ∧
        m.driver.trace.Gammas.length = n_samples ∧
        m.driver.trace.Rho.length = n_samples := by
  have htr := setup_truncation_ok
    (setup_configs truncate tuning (1/2) (2/5) (3/5) (101/100)) M_emin M_emax
    h1 h2
  have hstep : base_init advance v0 none truncate tuning M_emin M_emax
      n_samples =
      (setup_truncation
          (setup_configs truncate tuning (1/2) (2/5) (3/5) (101/100))
          M_emin M_emax) >>=
        (fun bounds =>
          .ok ⟨setup_configs truncate tuning (1/2) (2/5) (3/5) (101/100),
               bounds.1, bounds.2, SAMPLERS_id,
               sampleLoop advance n_samples ⟨v0, Trace.empty α⟩⟩) := rfl
  have hbase : base_init advance v0 none truncate tuning M_emin M_emax
      n_samples =
      .ok ⟨setup_configs truncate tuning (1/2) (2/5) (3/5) (101/100),
           1 / M_emin, 1 / M_emax, SAMPLERS_id,
           sampleLoop advance n_samples ⟨v0, Trace.empty α⟩⟩ := by
    rw [hstep, htr]
    rfl
  have hl := sampleLoop_empty_eq advance n_samples v0
  refine ⟨_, hbase, ?_, ?_, ?_, ?_, ?_, ?_, ?_⟩ <;>
    rw [hl] <;> simp [traceAppend, Trace.empty, drawHistory_length]

/-- Witness for C10 at the default `n_samples = 1000`. -/
theorem construction_runs_sampler_witness :
    (((-1 : ℚ) ≠ 0) ∧ ((1 : ℚ) ≠ 0)) ∧
      ∃ m : BaseModel ℕ,
        base_init succAdvance ⟨0, 0, 0, 0, 0, 0⟩ none .eigs 0 (-1) 1 1000 =
            .ok m ∧
          m.driver.vals = succAdvance^[1000] ⟨0, 0, 0, 0, 0, 0⟩ ∧
          m.driver.trace.Alphas.length = 1000 ∧
          m.driver.trace.Betas.length = 1000 ∧
          m.driver.trace.Sigma2.length = 1000 ∧
          m.driver.trace.Tau2.length = 1000 ∧
          m.driver.trace.Gammas.length = 1000 ∧
          m.driver.trace.Rho.length = 1000 :=
  ⟨⟨by norm_num, by norm_num⟩,
   construction_runs_sampler succAdvance ⟨0, 0, 0, 0, 0, 0⟩ .eigs 0 (-1) 1
     1000 (by norm_num) (by norm_num)⟩

end HLM
